import Mathlib

/-!
Shallow embedding of `VirtualFileDiscripter.py`: a FUSE passthrough filesystem
that mirrors a backing directory tree and injects one synthetic virtual file
(`nothing.txt`) into the exposed namespace.

The operating-system calls (`os.lstat`, `os.listdir`, `os.unlink`, ...) are
external collaborators; they are modelled by the record `RealFS` of abstract
functions returning `Except Nat _` (the `Nat` is an errno).  Each FUSE
operation of the Python class is translated into a Lean function taking the
`RealFS` model and the backing root as explicit arguments.  Python exceptions
are modelled by `Except PyError _`: `PyError.osError e` is an `OSError` with
errno `e` (raised by a delegated real call), and `PyError.nameError n` is a
`NameError` on the unbound identifier `n`.

String primitives used by the Python code (`startswith`, slicing, `split`,
`os.path.join`, `os.path.relpath`) are given computable list-based
translations so that concrete instances evaluate by `decide` / `rfl`.
-/

namespace VirtualFileDiscripter

/-- Python exception outcomes visible through the FUSE layer. -/
inductive PyError where
  | nameError (n : String)
  | osError (errno : Nat)
deriving DecidableEq, Repr

/-- errno for "no such file or directory". -/
def ENOENT : Nat := 2

/-- errno for "bad file descriptor". -/
def EBADF : Nat := 9

/-- The attribute record assembled by `getattr` (the eight `st_*` keys the
Python code puts in its dict, lines 59 and 63-64 of the source). -/
structure Stat where
  st_atime : Nat
  st_ctime : Nat
  st_gid : Nat
  st_mode : Nat
  st_mtime : Nat
  st_nlink : Nat
  st_size : Nat
  st_uid : Nat
deriving DecidableEq, Repr

/-- Model of the real operating-system calls the Python code delegates to.
Each fallible call returns `Except Nat _` where the `Nat` is the errno of the
`OSError` it raises on failure.  `pathExists` models whether a real path
exists in the backing store (used to state when `unlink` must fail). -/
structure RealFS where
  lstat : String → Except Nat Stat
  isdir : String → Bool
  listdir : String → List String
  readlink : String → Except Nat String
  unlink : String → Except Nat Unit
  symlink : String → String → Except Nat Unit
  rename : String → String → Except Nat Unit
  link : String → String → Except Nat Unit
  openf : String → Nat → Except Nat Nat
  lseek : Nat → Nat → Except Nat Nat
  read : Nat → Nat → Except Nat (List Char)
  write : Nat → List Char → Except Nat Nat
  fsync : Nat → Except Nat Unit
  close : Nat → Except Nat Unit
  pathExists : String → Bool

/-- Lift a delegated real call's result, surfacing its `OSError` unmodified. -/
def liftOS {α : Type} : Except Nat α → Except PyError α
  | .error e => .error (.osError e)
  | .ok a => .ok a

/-- Python `s.startswith(pre)`, translated to a prefix test on the character
lists underlying the strings. -/
def strStartsWith (s pre : String) : Bool :=
  pre.data.isPrefixOf s.data

/-- Python `s.endswith(suf)`, translated to a suffix test on the character
lists underlying the strings. -/
def strEndsWith (s suf : String) : Bool :=
  suf.data.isSuffixOf s.data

/-- Python `s[1:]`: drop the first character. -/
def strDrop1 (s : String) : String :=
  ⟨s.data.drop 1⟩

/-- Python `posixpath.join(a, b)` for two components: an absolute `b` wins;
otherwise `b` is appended to `a` with a separator unless `a` is empty or
already ends in one. -/
def osPathJoin (a b : String) : String :=
  if strStartsWith b "/" then b
  else if a = "" then a ++ b
  else if strEndsWith a "/" then a ++ b
  else a ++ "/" ++ b

/-- Helper splitting a character list at `/` (Python `s.split("/")`). -/
def splitSlashAux : List Char → List Char → List String
  | [], acc => [⟨acc.reverse⟩]
  | c :: cs, acc =>
    if c = '/' then ⟨acc.reverse⟩ :: splitSlashAux cs []
    else splitSlashAux cs (c :: acc)

/-- The nonempty components of a path: `[x for x in p.split(sep) if x]` as in
`posixpath.relpath`. -/
def splitParts (p : String) : List String :=
  (splitSlashAux p.data []).filter (fun s => s ≠ "")

/-- Length of the longest common prefix of two component lists
(`posixpath.commonprefix` applied to the two split lists). -/
def commonPrefixLen : List String → List String → Nat
  | a :: as, b :: bs => if a = b then 1 + commonPrefixLen as bs else 0
  | _, _ => 0

/-- Python `posixpath.join(*rel_list)` for a nonempty list of relative
components: intercalate a separator. -/
def joinSlash : List String → String
  | [] => ""
  | x :: xs => xs.foldl (fun acc y => acc ++ "/" ++ y) x

/-- Python `posixpath.relpath(path, start)` for absolute, already-normalized
inputs (the shape `readlink` feeds it: `path` starts with `/`, `start` is the
mount-time backing root): split both into components, strip the common
prefix, climb with `..` for the remaining start components. -/
def relpath (path start : String) : String :=
  let start_list := splitParts start
  let path_list := splitParts path
  let i := commonPrefixLen start_list path_list
  let rel_list : List String :=
    List.replicate (start_list.length - i) ".." ++ path_list.drop i
  if rel_list = [] then "." else joinSlash rel_list

/-- `VIRTUAL_FILE` (source line 20): the injected virtual filename. -/
def VIRTUAL_FILE : String := "nothing.txt"

/-- `VIRTUAL_FILE_VALUE` (source line 21): `'ほげほげほげ'*10000 + 'end\n'`,
modelled at character granularity. -/
def VIRTUAL_FILE_VALUE : List Char :=
  (List.replicate 10000 "ほげほげほげ".toList).flatten ++ "end\n".toList

/-- `_full_path` (source lines 31-36): strip one leading `/` from the exposed
path, then `os.path.join` it onto the backing root. -/
def full_path (root part : String) : String :=
  let part := if strStartsWith part "/" then strDrop1 part else part
  osPathJoin root part

/-- The fixed synthetic attribute record for the virtual file (source
line 59): `st_size` is the virtual content's length, one hard link, epoch
timestamps, mode `33060` (octal `100444`), uid `1000`, gid `1004`. -/
def virtualAttr : Stat :=
  { st_ctime := 0, st_mtime := 0, st_nlink := 1, st_mode := 33060,
    st_size := VIRTUAL_FILE_VALUE.length, st_gid := 1004, st_uid := 1000,
    st_atime := 0 }

/-- `getattr` (source lines 57-66): the synthetic record on the virtual path,
otherwise `os.lstat` on the resolved path. -/
def getattr (fs : RealFS) (root path : String) : Except PyError Stat :=
  if path = "/" ++ VIRTUAL_FILE then .ok virtualAttr
  else liftOS (fs.lstat (full_path root path))

/-- `readdir` (source lines 68-79): `.`, `..`, the virtual filename, then the
real directory's entries when the resolved path is a directory. -/
def readdir (fs : RealFS) (root path : String) : List String :=
  let dirents := [".", "..", VIRTUAL_FILE]
  let fp := full_path root path
  if fs.isdir fp then dirents ++ fs.listdir fp else dirents

/-- `readlink` (source lines 81-88): read the real link target; if it is
absolute, return it relativized against the backing root, else unchanged. -/
def readlink (fs : RealFS) (root path : String) : Except PyError String :=
  match fs.readlink (full_path root path) with
  | .error e => .error (.osError e)
  | .ok pathname =>
    if strStartsWith pathname "/" then .ok (relpath pathname root)
    else .ok pathname

/-- `unlink` (source lines 111-113): delegate to `os.unlink` on the resolved
path, with no virtual-file special case. -/
def unlink (fs : RealFS) (root path : String) : Except PyError Unit :=
  liftOS (fs.unlink (full_path root path))

/-- `symlink` (source lines 115-117): the debug-log call on line 116 reads
the identifier `path`, which is not bound in this method (its parameters are
`name` and `target`), so every invocation raises `NameError` before
`os.symlink` is reached. -/
def symlink (fs : RealFS) (root name target : String) : Except PyError Unit :=
  .error (.nameError "path")

/-- `rename` (source lines 119-121): the debug-log call on line 120 reads the
unbound identifier `path` (parameters are `old` and `new`), so every
invocation raises `NameError` before `os.rename` is reached. -/
def rename (fs : RealFS) (root oldp newp : String) : Except PyError Unit :=
  .error (.nameError "path")

/-- `link` (source lines 123-125): the debug-log call on line 124 reads the
unbound identifier `path` (parameters are `target` and `name`), so every
invocation raises `NameError` before `os.link` is reached. -/
def link (fs : RealFS) (root target name : String) : Except PyError Unit :=
  .error (.nameError "path")

/-- `open` (source lines 134-145): the fixed sentinel descriptor `55110` on
the virtual path, otherwise `os.open` on the resolved path with the flags. -/
def «open» (fs : RealFS) (root path : String) (flags : Nat) : Except PyError Nat :=
  if path = "/" ++ VIRTUAL_FILE then .ok 55110
  else liftOS (fs.openf (full_path root path) flags)

/-- `read` (source lines 152-161): the Python slice
`VIRTUAL_FILE_VALUE[offset:offset+size]` on the virtual path, otherwise
`os.lseek` to the offset then `os.read` of `size` bytes. -/
def read (fs : RealFS) (root path : String) (size offset fh : Nat) :
    Except PyError (List Char) :=
  if path = "/" ++ VIRTUAL_FILE then
    .ok ((VIRTUAL_FILE_VALUE.drop offset).take size)
  else
    match fs.lseek fh offset with
    | .error e => .error (.osError e)
    | .ok _ => liftOS (fs.read fh size)

/-- `write` (source lines 163-166): always `os.lseek` then `os.write` on the
given descriptor; the path is never inspected. -/
def write (fs : RealFS) (root path : String) (buf : List Char) (offset fh : Nat) :
    Except PyError Nat :=
  match fs.lseek fh offset with
  | .error e => .error (.osError e)
  | .ok _ => liftOS (fs.write fh buf)

/-- `flush` (source lines 174-179): `None` on the virtual path, otherwise
`os.fsync` on the descriptor. -/
def flush (fs : RealFS) (root path : String) (fh : Nat) : Except PyError Unit :=
  if path = "/" ++ VIRTUAL_FILE then .ok ()
  else liftOS (fs.fsync fh)

/-- `release` (source lines 181-186): `None` on the virtual path, otherwise
`os.close` on the descriptor. -/
def release (fs : RealFS) (root path : String) (fh : Nat) : Except PyError Unit :=
  if path = "/" ++ VIRTUAL_FILE then .ok ()
  else liftOS (fs.close fh)

/-- `fsync` (source lines 188-190): delegates to `flush`. -/
def fsync (fs : RealFS) (root path : String) (fdatasync : Bool) (fh : Nat) :
    Except PyError Unit :=
  flush fs root path fh

/-- Well-formedness of the OS model for deletion: unlinking a path that does
not exist fails with errno `ENOENT`. -/
def RealFS.UnlinkMissingFails (fs : RealFS) : Prop :=
  ∀ p, fs.pathExists p = false → fs.unlink p = .error ENOENT

/-- An OS model of an empty backing store: every lookup fails with `ENOENT`,
every descriptor operation fails with `EBADF`. -/
def noFS : RealFS where
  lstat := fun _ => .error 2
  isdir := fun _ => false
  listdir := fun _ => []
  readlink := fun _ => .error 2
  unlink := fun _ => .error 2
  symlink := fun _ _ => .error 2
  rename := fun _ _ => .error 2
  link := fun _ _ => .error 2
  openf := fun _ _ => .error 2
  lseek := fun _ _ => .error 9
  read := fun _ _ => .error 9
  write := fun _ _ => .error 9
  fsync := fun _ => .error 9
  close := fun _ => .error 9
  pathExists := fun _ => false

/-- An OS model whose every directory exists and lists a real `nothing.txt`
next to `a.txt` (exercises the duplicate-listing quirk). -/
def dirFS : RealFS :=
  { noFS with isdir := fun _ => true, listdir := fun _ => ["nothing.txt", "a.txt"] }

/-- An OS model whose every symlink resolves to the absolute target
`/data/x/y`. -/
def linkFS : RealFS :=
  { noFS with readlink := fun _ => .ok "/data/x/y" }

lemma length_flatten_replicate (n : Nat) (l : List Char) :
    ((List.replicate n l).flatten).length = n * l.length := by
  induction n with
  | zero => simp
  | succ k ih => simp [List.replicate_succ, ih, Nat.succ_mul, Nat.add_comm]

lemma VIRTUAL_FILE_VALUE_length : VIRTUAL_FILE_VALUE.length = 60004 := by
  have h1 : "ほげほげほげ".toList.length = 6 := rfl
  have h2 : "end\n".toList.length = 4 := rfl
  simp only [VIRTUAL_FILE_VALUE, List.length_append, length_flatten_replicate, h1, h2]

lemma full_path_vfile (root : String) :
    full_path root ("/" ++ VIRTUAL_FILE) = osPathJoin root VIRTUAL_FILE := by
  have h1 : strStartsWith ("/" ++ VIRTUAL_FILE) "/" = true := rfl
  have h2 : strDrop1 ("/" ++ VIRTUAL_FILE) = VIRTUAL_FILE := rfl
  simp [full_path, h1, h2]

lemma osPathJoin_root_vfile (root : String) (h1 : root ≠ "")
    (h2 : strEndsWith root "/" = false) :
    osPathJoin root VIRTUAL_FILE = root ++ "/" ++ VIRTUAL_FILE := by
  have h0 : strStartsWith VIRTUAL_FILE "/" = false := rfl
  simp [osPathJoin, h0, h1, h2]

lemma subpath_ne_vpath (sub : String) :
    ("/" ++ sub ++ "/" ++ VIRTUAL_FILE) ≠ ("/" ++ VIRTUAL_FILE) := by
  intro h
  have hlen := congrArg (fun s => s.data.length) h
  have h1 : "/".data.length = 1 := rfl
  have h11 : VIRTUAL_FILE.data.length = 11 := rfl
  simp only [String.data_append, List.length_append, h1, h11] at hlen
  omega

/-- C1: for every offset and size, `read` on the virtual file's path returns
the sub-slice `content[offset : offset+size]` clamped to the content's
bounds — the result's length is `min size (length - offset)`, a request at or
past the end yields the empty result, and no error is ever produced. -/
theorem C1_read_virtual_clamped (fs : RealFS) (root : String) (size offset fh : Nat) :
    read fs root ("/" ++ VIRTUAL_FILE) size offset fh
      = .ok ((VIRTUAL_FILE_VALUE.drop offset).take size)
    ∧ ((VIRTUAL_FILE_VALUE.drop offset).take size).length
      = min size (VIRTUAL_FILE_VALUE.length - offset)
    ∧ (VIRTUAL_FILE_VALUE.length ≤ offset →
      read fs root ("/" ++ VIRTUAL_FILE) size offset fh = .ok ([] : List Char)) := by
  refine ⟨by simp [read], by simp, fun h => ?_⟩
  simp [read, List.drop_eq_nil_of_le h]

theorem C1_read_virtual_clamped_witness :
    read noFS "/data" ("/" ++ VIRTUAL_FILE) 7 70000 55110 = .ok ([] : List Char) := by
  refine (C1_read_virtual_clamped noFS "/data" 7 70000 55110).2.2 ?_
  rw [VIRTUAL_FILE_VALUE_length]
  omega

/-- C2: `getattr` on the virtual path returns the fixed synthetic record —
size is the virtual content's length, one hard link, epoch-zero timestamps,
mode 33060, uid 1000, gid 1004 — and the result is independent of the real
filesystem model (no real query is made on this branch). -/
theorem C2_getattr_virtual_synthetic (fs fs' : RealFS) (root root' : String) :
    getattr fs root ("/" ++ VIRTUAL_FILE) = .ok virtualAttr
    ∧ virtualAttr.st_size = VIRTUAL_FILE_VALUE.length
    ∧ virtualAttr.st_nlink = 1
    ∧ virtualAttr.st_atime = 0 ∧ virtualAttr.st_ctime = 0 ∧ virtualAttr.st_mtime = 0
    ∧ virtualAttr.st_mode = 33060 ∧ virtualAttr.st_uid = 1000 ∧ virtualAttr.st_gid = 1004
    ∧ getattr fs root ("/" ++ VIRTUAL_FILE) = getattr fs' root' ("/" ++ VIRTUAL_FILE) := by
  refine ⟨by simp [getattr], rfl, rfl, rfl, rfl, rfl, rfl, rfl, rfl, by simp [getattr]⟩

/-- C3: `readdir` yields, in order, `.`, `..`, the virtual filename, then —
only when the resolved real path is a directory — the real entries; no
deduplication (a real `nothing.txt` makes the count 1 + its real count); and
the listing of `/` always contains `.`, `..`, and the virtual filename. -/
theorem C3_readdir_order_and_dup (fs : RealFS) (root p : String) :
    readdir fs root p
      = [".", "..", VIRTUAL_FILE]
        ++ (if fs.isdir (full_path root p) then fs.listdir (full_path root p) else [])
    ∧ (fs.isdir (full_path root p) = true →
        (readdir fs root p).count VIRTUAL_FILE
          = 1 + (fs.listdir (full_path root p)).count VIRTUAL_FILE)
    ∧ "." ∈ readdir fs root "/" ∧ ".." ∈ readdir fs root "/"
    ∧ VIRTUAL_FILE ∈ readdir fs root "/" := by
  have hmem : ∀ (s : String), s ∈ ([".", "..", VIRTUAL_FILE] : List String) →
      s ∈ readdir fs root "/" := by
    intro s hs
    simp only [readdir]
    split
    · exact List.mem_append_left _ hs
    · exact hs
  refine ⟨?_, fun h => ?_, hmem "." (by decide), hmem ".." (by decide),
    hmem VIRTUAL_FILE (by decide)⟩
  · simp only [readdir]
    split <;> simp
  · have hc : ([".", "..", VIRTUAL_FILE] : List String).count VIRTUAL_FILE = 1 := by decide
    have h1 : readdir fs root p
        = [".", "..", VIRTUAL_FILE] ++ fs.listdir (full_path root p) := by
      simp [readdir, h]
    rw [h1, List.count_append, hc]

theorem C3_readdir_order_and_dup_witness :
    (readdir dirFS "/data" "/").count VIRTUAL_FILE = 2 := by
  have h := (C3_readdir_order_and_dup dirFS "/data" "/").2.1 rfl
  rw [h]
  decide

/-- C4: `open` on the virtual path returns the fixed sentinel descriptor
55110 for every flags value, independently of the real filesystem model and
of the flags; on any other path it delegates to the real open call on the
resolved path, surfacing its result (hence its error) unmodified. -/
theorem C4_open_virtual_sentinel (fs fs' : RealFS) (root p : String) (flags flags' : Nat) :
    «open» fs root ("/" ++ VIRTUAL_FILE) flags = .ok 55110
    ∧ «open» fs root ("/" ++ VIRTUAL_FILE) flags = «open» fs' root ("/" ++ VIRTUAL_FILE) flags'
    ∧ (p ≠ "/" ++ VIRTUAL_FILE →
        «open» fs root p flags = liftOS (fs.openf (full_path root p) flags)) := by
  refine ⟨by simp [«open»], by simp [«open»], fun h => by simp [«open», h]⟩

theorem C4_open_virtual_sentinel_witness :
    «open» noFS "/data" ("/" ++ VIRTUAL_FILE) 0 = .ok 55110
    ∧ «open» noFS "/data" "/a.txt" 0 = .error (.osError 2) := by
  have h := C4_open_virtual_sentinel noFS noFS "/data" "/a.txt" 0 0
  refine ⟨h.1, ?_⟩
  rw [h.2.2 (by decide)]
  rfl

/-- C5: the debug-log statements of `symlink`, `rename`, and `link` read the
identifier `path`, which none of the three methods binds, so every call
raises `NameError` and the corresponding real operation is never invoked —
the code never reaches the delegation the spec describes. -/
theorem C5_symlink_rename_link_name_error (fs : RealFS) (root a b c d e f : String) :
    symlink fs root a b = .error (.nameError "path")
    ∧ rename fs root c d = .error (.nameError "path")
    ∧ link fs root e f = .error (.nameError "path") :=
  ⟨rfl, rfl, rfl⟩

/-- C6: `unlink` on the virtual path is not intercepted — it resolves to the
backing path `root ++ "/" ++ virtual filename` and delegates the real unlink
there, so when that real path does not exist the call fails with `ENOENT`,
while `getattr` on the virtual path still returns the synthetic record. -/
theorem C6_unlink_virtual_not_intercepted (fs : RealFS) (root : String)
    (hwf : fs.UnlinkMissingFails)
    (h1 : root ≠ "") (h2 : strEndsWith root "/" = false)
    (hmiss : fs.pathExists (root ++ "/" ++ VIRTUAL_FILE) = false) :
    full_path root ("/" ++ VIRTUAL_FILE) = root ++ "/" ++ VIRTUAL_FILE
    ∧ unlink fs root ("/" ++ VIRTUAL_FILE) = .error (.osError ENOENT)
    ∧ getattr fs root ("/" ++ VIRTUAL_FILE) = .ok virtualAttr := by
  have hfp : full_path root ("/" ++ VIRTUAL_FILE) = root ++ "/" ++ VIRTUAL_FILE := by
    rw [full_path_vfile, osPathJoin_root_vfile root h1 h2]
  refine ⟨hfp, ?_, by simp [getattr]⟩
  show liftOS (fs.unlink (full_path root ("/" ++ VIRTUAL_FILE))) = .error (.osError ENOENT)
  rw [hfp, hwf _ hmiss]
  rfl

theorem C6_unlink_virtual_not_intercepted_witness :
    unlink noFS "/data" ("/" ++ VIRTUAL_FILE) = .error (.osError ENOENT)
    ∧ getattr noFS "/data" ("/" ++ VIRTUAL_FILE) = .ok virtualAttr := by
  have h := C6_unlink_virtual_not_intercepted noFS "/data"
    (fun _ _ => rfl) (by decide) (by decide) rfl
  exact ⟨h.2.1, h.2.2⟩

/-- C7: `flush`, `fsync`, and `release` on the virtual path are no-ops
returning success for every descriptor; on any other path `flush` and
`fsync` delegate to the real sync on the descriptor and `release` to the
real close, surfacing that call's result. -/
theorem C7_flush_fsync_release_virtual_noop (fs : RealFS) (root p : String)
    (fh : Nat) (b : Bool) :
    flush fs root ("/" ++ VIRTUAL_FILE) fh = .ok ()
    ∧ fsync fs root ("/" ++ VIRTUAL_FILE) b fh = .ok ()
    ∧ release fs root ("/" ++ VIRTUAL_FILE) fh = .ok ()
    ∧ (p ≠ "/" ++ VIRTUAL_FILE →
        flush fs root p fh = liftOS (fs.fsync fh)
        ∧ fsync fs root p b fh = liftOS (fs.fsync fh)
        ∧ release fs root p fh = liftOS (fs.close fh)) := by
  refine ⟨by simp [flush], by simp [fsync, flush], by simp [release],
    fun h => ⟨by simp [flush, h], by simp [fsync, flush, h], by simp [release, h]⟩⟩

theorem C7_flush_fsync_release_virtual_noop_witness :
    flush noFS "/data" ("/" ++ VIRTUAL_FILE) 55110 = .ok ()
    ∧ release noFS "/data" "/a.txt" 3 = .error (.osError EBADF) := by
  refine ⟨(C7_flush_fsync_release_virtual_noop noFS "/data" "/a.txt" 55110 false).1, ?_⟩
  have h := (C7_flush_fsync_release_virtual_noop noFS "/data" "/a.txt" 3 false).2.2.2
    (by decide)
  rw [h.2.2]
  rfl

/-- C8: `write` always performs the real seek-then-write on the given
descriptor, never inspecting the path — in particular a write on the
virtual path behaves exactly like a write on any other path, so the virtual
file is not writable through this operation. -/
theorem C8_write_always_delegates (fs : RealFS) (root p q : String)
    (buf : List Char) (offset fh : Nat) :
    write fs root p buf offset fh
      = (match fs.lseek fh offset with
         | .error e => .error (.osError e)
         | .ok _ => liftOS (fs.write fh buf))
    ∧ write fs root p buf offset fh = write fs root q buf offset fh
    ∧ write fs root ("/" ++ VIRTUAL_FILE) buf offset fh
      = write fs root p buf offset fh :=
  ⟨rfl, rfl, rfl⟩

/-- C9: the virtual filename is injected into every directory listing, not
only the root, yet `getattr`, `open`, `read`, `flush`, and `release`
recognize the virtual file only at the exact path `/` + virtual filename:
on the subdirectory-shaped path `/sub/` + virtual filename (distinct from
the virtual path for every `sub`) each of them takes the real branch. -/
theorem C9_virtual_entry_everywhere_resolves_only_at_root
    (fs : RealFS) (root p sub : String) (flags size offset fh : Nat) :
    VIRTUAL_FILE ∈ readdir fs root p
    ∧ ("/" ++ sub ++ "/" ++ VIRTUAL_FILE) ≠ ("/" ++ VIRTUAL_FILE)
    ∧ getattr fs root ("/" ++ sub ++ "/" ++ VIRTUAL_FILE)
        = liftOS (fs.lstat (full_path root ("/" ++ sub ++ "/" ++ VIRTUAL_FILE)))
    ∧ «open» fs root ("/" ++ sub ++ "/" ++ VIRTUAL_FILE) flags
        = liftOS (fs.openf (full_path root ("/" ++ sub ++ "/" ++ VIRTUAL_FILE)) flags)
    ∧ read fs root ("/" ++ sub ++ "/" ++ VIRTUAL_FILE) size offset fh
        = (match fs.lseek fh offset with
           | .error e => .error (.osError e)
           | .ok _ => liftOS (fs.read fh size))
    ∧ flush fs root ("/" ++ sub ++ "/" ++ VIRTUAL_FILE) fh = liftOS (fs.fsync fh)
    ∧ release fs root ("/" ++ sub ++ "/" ++ VIRTUAL_FILE) fh = liftOS (fs.close fh) := by
  have hne := subpath_ne_vpath sub
  refine ⟨?_, hne, by simp [getattr, hne], by simp [«open», hne],
    by simp [read, hne], by simp [flush, hne], by simp [release, hne]⟩
  simp only [readdir]
  split
  · exact List.mem_append_left _ (by decide)
  · decide

/-- C10: `readlink` does not return the real link target unmodified — an
absolute target (starting with `/`) is rewritten to its path relative to the
backing root, while a relative target is returned unchanged. -/
theorem C10_readlink_relativizes_absolute_targets
    (fs : RealFS) (root p target : String)
    (h : fs.readlink (full_path root p) = .ok target) :
    readlink fs root p
      = .ok (if strStartsWith target "/" then relpath target root else target)
    ∧ (strStartsWith target "/" = false → readlink fs root p = .ok target) := by
  have hr : readlink fs root p
      = if strStartsWith target "/" then .ok (relpath target root) else .ok target := by
    simp only [readlink, h]
  constructor
  · rw [hr, apply_ite Except.ok]
  · intro hf
    rw [hr, if_neg (by simp [hf])]

theorem C10_readlink_relativizes_absolute_targets_witness :
    readlink linkFS "/data" "/lnk" = .ok "x/y"
    ∧ ("x/y" : String) ≠ "/data/x/y" := by
  have h := (C10_readlink_relativizes_absolute_targets linkFS "/data" "/lnk"
    "/data/x/y" rfl).1
  refine ⟨?_, by decide⟩
  rw [h]
  rfl

end VirtualFileDiscripter
